import Mathlib

/-!
Shallow embedding of the WebSocket broadcast relay of the srlog repository
(`wss.on('connection')` message handler in `src/unnamed/part_001`, backed by
the storage layer of `src/server/storage.ts` / `src/unnamed/part_000`), and
proofs of the spec's claims about it.

Modelling conventions:
* Machine time (`new Date()`) is an abstract tick `now : Nat`.
* `randomUUID` row ids are modelled by a fresh-id counter `nextLocId`.
* JavaScript `undefined` (a missing payload field after destructuring) is
  `Option.none`; trip `status` strings are kept as raw `String`s because the
  handler only performs a TypeScript cast, never a runtime check.
* Storage calls that can throw at runtime (database errors) and the race in
  which the trip disappears between the authorization read and the update are
  injected through an explicit `Faults` record; with all flags false the model
  is the fault-free run.
-/

namespace SRLog

/-- A trip row, restricted to the fields the relay reads or writes
(`id`, `driverId`, `vehicleId`, `status`, `startTime`, `endTime`).
`status` is a raw string: the handler casts but never validates it. -/
structure Trip where
  id : String
  driverId : String
  vehicleId : String
  status : String
  startTime : Option Nat
  endTime : Option Nat
  deriving DecidableEq, Repr

/-- A persisted location row (`createLocation` result): `id` and `timestamp`
are generated by storage, the rest comes from the inbound payload. -/
structure LocationRow where
  id : Nat
  tripId : String
  latitude : String
  longitude : String
  timestamp : Nat
  deriving DecidableEq, Repr

/-- The storage layer's state: trips, location rows, and the status fields of
vehicles and users (the only user/vehicle data the relay touches), plus the
fresh-id counter for location rows. -/
structure StorageState where
  trips : List Trip
  locations : List LocationRow
  vehicles : List (String × String)
  users : List (String × String)
  nextLocId : Nat
  deriving DecidableEq, Repr

/-- `storage.getTrip(id)`: look the trip up by id. -/
def getTrip (s : StorageState) (id : String) : Option Trip :=
  s.trips.find? (fun t => t.id == id)

/-- Replace the trip stored under `id` (the `this.trips.set(id, updatedTrip)`
step of `MemStorage.updateTrip`). -/
def putTrip (trips : List Trip) (id : String) (t' : Trip) : List Trip :=
  trips.map (fun t => if t.id == id then t' else t)

/-- The update object the handler passes to `storage.updateTrip`:
`status` is always a key (its value may be `undefined`), while `startTime` /
`endTime` keys are only present on the `in_progress` / `completed` branches. -/
structure TripPatch where
  status : Option String
  startTime : Option Nat
  endTime : Option Nat
  deriving DecidableEq, Repr

/-- `MemStorage.updateTrip`'s merge `{...trip, ...updates, status:
(updates.status || trip.status)}`: a present `startTime`/`endTime` key
overwrites, and a falsy `status` (undefined or "") keeps the old status. -/
def applyTripPatch (t : Trip) (u : TripPatch) : Trip :=
  { t with
    status :=
      match u.status with
      | some st => if st == "" then t.status else st
      | none => t.status
    startTime :=
      match u.startTime with
      | some n => some n
      | none => t.startTime
    endTime :=
      match u.endTime with
      | some n => some n
      | none => t.endTime }

/-- `storage.updateTrip(id, updates)`: `undefined` when the trip is absent,
otherwise the merged trip, which is also written back. -/
def updateTrip (s : StorageState) (id : String) (u : TripPatch) :
    Option Trip × StorageState :=
  match s.trips.find? (fun t => t.id == id) with
  | none => (none, s)
  | some t =>
    let t' := applyTripPatch t u
    (some t', { s with trips := putTrip s.trips id t' })

/-- `storage.updateVehicle(id, { status })`: update the vehicle's status when
the vehicle exists, otherwise leave storage unchanged (the handler ignores the
returned value). -/
def updateVehicleStatus (s : StorageState) (id st : String) : StorageState :=
  { s with vehicles := s.vehicles.map (fun v => if v.1 == id then (v.1, st) else v) }

/-- `storage.updateUser(id, { status })`: same shape as `updateVehicleStatus`. -/
def updateUserStatus (s : StorageState) (id st : String) : StorageState :=
  { s with users := s.users.map (fun v => if v.1 == id then (v.1, st) else v) }

/-- `storage.createLocation`: append a fresh row (fresh id, storage-assigned
timestamp) and return it. -/
def createLocation (s : StorageState) (tripId lat lng : String) (now : Nat) :
    LocationRow × StorageState :=
  let row : LocationRow :=
    { id := s.nextLocId, tripId := tripId, latitude := lat, longitude := lng,
      timestamp := now }
  (row, { s with locations := s.locations ++ [row], nextLocId := s.nextLocId + 1 })

/-- Modelled from the spec: `storage.deleteLocationsByTrip(id)` is called by
the relay (`src/unnamed/part_001`) but its implementation is not among the
provided sources; per the spec it deletes all location history rows of the
given trip. -/
def deleteLocationsByTrip (s : StorageState) (tripId : String) : StorageState :=
  { s with locations := s.locations.filter (fun l => !(l.tripId == tripId)) }

/-- Payload of an inbound `location_update` frame; each field is `none` when
missing from the JSON (JavaScript `undefined` after destructuring).
`latitude`/`longitude` are kept as the string their `toString()` produces. -/
structure LocPayload where
  tripId : Option String
  latitude : Option String
  longitude : Option String
  driverId : Option String
  deriving DecidableEq, Repr

/-- Payload of an inbound `trip_status_update` frame. -/
structure StatusPayload where
  tripId : Option String
  status : Option String
  driverId : Option String
  deriving DecidableEq, Repr

/-- An inbound frame as the handler's if/else chain discriminates it:
`notJson` is a frame on which `JSON.parse` throws; `location_update none` /
`trip_status_update none` are frames with the right `type` but a falsy or
missing `payload`; `other` is well-formed JSON with an unrecognized `type`. -/
inductive Frame where
  | notJson
  | ping
  | location_update (payload : Option LocPayload)
  | trip_status_update (payload : Option StatusPayload)
  | other (ty : String)
  deriving DecidableEq, Repr

/-- An outbound message, before serialization. Serialization is a pure
injective function of this value, so two sends carry identical bytes exactly
when they carry equal `OutMsg`s. -/
inductive OutMsg where
  | connected (message : String)
  | pong
  | location_update (data : LocationRow)
  | trip_status_update (data : Trip)
  | error (message : String)
  deriving DecidableEq, Repr

/-- The connection registry `wsClients`: client id paired with whether the
socket's `readyState` is `OPEN`. -/
abbrev Registry := List (String × Bool)

/-- The broadcast fan-out `wsClients.forEach`: an `OPEN` client is sent the
message, any other client is deleted from the registry. Returns the registry
after the loop and the sends performed, in iteration order. -/
def wsBroadcast (reg : Registry) (msg : OutMsg) : Registry × List (String × OutMsg) :=
  match reg with
  | [] => ([], [])
  | (id, isOpen) :: rest =>
    let (reg', outs) := wsBroadcast rest msg
    if isOpen then ((id, isOpen) :: reg', (id, msg) :: outs)
    else (reg', outs)

/-- The JavaScript authorization comparison `trip.driverId !== driverId`
(negated): true only when the claimed driver id is present and equal. -/
def claimMatches (assigned : String) (claimed : Option String) : Bool :=
  match claimed with
  | some d => assigned == d
  | none => false

/-- Fault injection for the storage calls of one message: each `...Throws`
flag makes that call throw instead of acting; `updateTripReturnsNone` models
the trip vanishing between the authorization read and `updateTrip` (the two
`await` suspension points), so `updateTrip` returns `undefined`. -/
structure Faults where
  createLocationThrows : Bool := false
  updateTripThrows : Bool := false
  updateTripReturnsNone : Bool := false
  updateVehicleThrows : Bool := false
  updateUserThrows : Bool := false
  deleteLocationsThrows : Bool := false
  deriving DecidableEq, Repr

/-- The fault-free run. -/
def noFaults : Faults := {}

/-- The secondary side effects of an accepted `trip_status_update`, inside
their own try/catch: on `in_progress` flip vehicle to `in_use` and driver to
`on_trip`; on `completed` or `cancelled` flip both to `available` and delete
the trip's location rows. A throw aborts the rest of the block; the catch
only logs. -/
def secondaryEffects (s : StorageState) (f : Faults) (status : Option String)
    (ut : Trip) : StorageState :=
  if status == some "in_progress" then
    if f.updateVehicleThrows then s
    else
      let s1 := updateVehicleStatus s ut.vehicleId "in_use"
      if f.updateUserThrows then s1
      else updateUserStatus s1 ut.driverId "on_trip"
  else if status == some "completed" || status == some "cancelled" then
    if f.updateVehicleThrows then s
    else
      let s1 := updateVehicleStatus s ut.vehicleId "available"
      if f.updateUserThrows then s1
      else
        let s2 := updateUserStatus s1 ut.driverId "available"
        if f.deleteLocationsThrows then s2
        else deleteLocationsByTrip s2 ut.id
  else s

/-- One step of the `ws.on('message')` handler of `src/unnamed/part_001`
(lines 462–612): decode discrimination, fresh authorization read, mutation,
and broadcast, for a single inbound frame from connection `senderId`.
Returns the registry after the step, the storage state after the step, and
the sends performed as `(target connection, message)` pairs. -/
def handleMessage (reg : Registry) (s : StorageState) (f : Faults) (now : Nat)
    (senderId : String) (frame : Frame) :
    Registry × StorageState × List (String × OutMsg) :=
  match frame with
  | .notJson => (reg, s, [(senderId, .error "Invalid message format")])
  | .ping => (reg, s, [(senderId, .pong)])
  | .location_update none => (reg, s, [])
  | .location_update (some p) =>
    match p.tripId with
    | none => (reg, s, [(senderId, .error "Trip not found")])
    | some tid =>
      match getTrip s tid with
      | none => (reg, s, [(senderId, .error "Trip not found")])
      | some trip =>
        if !(claimMatches trip.driverId p.driverId) then
          (reg, s, [(senderId, .error "Unauthorized: You can only update your own trips")])
        else
          match p.latitude, p.longitude with
          | some lat, some lng =>
            if f.createLocationThrows then
              (reg, s, [(senderId, .error "Failed to save location update")])
            else
              let res := createLocation s tid lat lng now
              let bc := wsBroadcast reg (.location_update res.1)
              (bc.1, res.2, bc.2)
          | _, _ =>
            (reg, s, [(senderId, .error "Failed to save location update")])
  | .trip_status_update none => (reg, s, [])
  | .trip_status_update (some p) =>
    match p.tripId with
    | none => (reg, s, [(senderId, .error "Trip not found")])
    | some tid =>
      match getTrip s tid with
      | none => (reg, s, [(senderId, .error "Trip not found")])
      | some trip =>
        if !(claimMatches trip.driverId p.driverId) then
          (reg, s, [(senderId, .error "Unauthorized: You can only update your own trips")])
        else if f.updateTripThrows then
          (reg, s, [(senderId, .error "Failed to update trip status")])
        else
          let patch : TripPatch :=
            { status := p.status
              startTime := if p.status == some "in_progress" then some now else none
              endTime := if p.status == some "completed" then some now else none }
          match (if f.updateTripReturnsNone then (none, s) else updateTrip s tid patch) with
          | (none, s1) => (reg, s1, [])
          | (some ut, s1) =>
            let s2 := secondaryEffects s1 f p.status ut
            let bc := wsBroadcast reg (.trip_status_update ut)
            (bc.1, s2, bc.2)
  | .other _ => (reg, s, [])

/-- An outbound message is a broadcast-typed message (as opposed to a direct
reply) when it is a `location_update` or `trip_status_update` event. -/
def isBroadcastMsg : OutMsg → Bool
  | .location_update _ => true
  | .trip_status_update _ => true
  | _ => false

/-- An outbound message is an error reply. -/
def isErrorMsg : OutMsg → Bool
  | .error _ => true
  | _ => false

/-- The inbound frame is one of the two mutation kinds, with a payload. -/
def isUpdateFrame : Frame → Bool
  | .location_update (some _) => true
  | .trip_status_update (some _) => true
  | _ => false

/-- The claimed trip id of a mutation frame. -/
def frameTripId : Frame → Option String
  | .location_update (some p) => p.tripId
  | .trip_status_update (some p) => p.tripId
  | _ => none

/-- The claimed driver id of a mutation frame. -/
def frameDriverId : Frame → Option String
  | .location_update (some p) => p.driverId
  | .trip_status_update (some p) => p.driverId
  | _ => none

/-- The authorization check fails: the claimed trip id is missing, names no
stored trip, or the stored trip's driver differs from the claimed driver. -/
def authDenied (s : StorageState) (tripId driverId : Option String) : Bool :=
  match tripId with
  | none => true
  | some tid =>
    match getTrip s tid with
    | none => true
    | some trip => !(claimMatches trip.driverId driverId)

/-! ### Helper lemmas about the fan-out loop and storage -/

theorem wsBroadcast_eq (reg : Registry) (msg : OutMsg) :
    wsBroadcast reg msg =
      (reg.filter (fun c => c.2), (reg.filter (fun c => c.2)).map (fun c => (c.1, msg))) := by
  induction reg with
  | nil => rfl
  | cons c rest ih =>
    obtain ⟨id, b⟩ := c
    cases b <;> simp [wsBroadcast, ih, List.filter_cons]

theorem wsBroadcast_mem_out {reg : Registry} {msg : OutMsg} {cid : String} {out : OutMsg}
    (h : (cid, out) ∈ (wsBroadcast reg msg).2) : out = msg ∧ (cid, true) ∈ reg := by
  rw [wsBroadcast_eq] at h
  rcases List.mem_map.mp h with ⟨c, hc, heq⟩
  rcases List.mem_filter.mp hc with ⟨hcreg, hcopen⟩
  obtain ⟨c1, c2⟩ := c
  simp only at hcopen
  injection heq with h1 h2
  subst h1
  subst h2
  subst hcopen
  exact ⟨rfl, hcreg⟩

theorem wsBroadcast_mem_live {reg : Registry} (msg : OutMsg) {cid : String}
    (h : (cid, true) ∈ reg) : (cid, msg) ∈ (wsBroadcast reg msg).2 := by
  rw [wsBroadcast_eq]
  exact List.mem_map.mpr ⟨(cid, true), List.mem_filter.mpr ⟨h, rfl⟩, rfl⟩

theorem secondaryEffects_trips (s : StorageState) (f : Faults) (st : Option String)
    (ut : Trip) : (secondaryEffects s f st ut).trips = s.trips := by
  unfold secondaryEffects
  split_ifs <;> simp [updateVehicleStatus, updateUserStatus, deleteLocationsByTrip]

theorem find?_putTrip (l : List Trip) (tid : String) (t' : Trip)
    (hl : (l.find? (fun t => t.id == tid)).isSome) (hid : (t'.id == tid) = true) :
    (putTrip l tid t').find? (fun t => t.id == tid) = some t' := by
  induction l with
  | nil => simp [List.find?] at hl
  | cons a l ih =>
    by_cases ha : (a.id == tid) = true
    · simp [putTrip, List.find?, ha, hid]
    · have hl' : (l.find? (fun t => t.id == tid)).isSome := by
        simpa [List.find?, ha] using hl
      have := ih hl'
      simpa [putTrip, List.find?, ha] using this

/-- The update object the handler builds for `storage.updateTrip` as a
function of the (possibly missing) claimed status. -/
def statusPatch (status : Option String) (now : Nat) : TripPatch :=
  { status := status
    startTime := if status == some "in_progress" then some now else none
    endTime := if status == some "completed" then some now else none }

theorem handle_status_accepted (reg : Registry) (s : StorageState) (f : Faults)
    (now : Nat) (sid : String) (p : StatusPayload) (tid : String) (trip : Trip)
    (htid : p.tripId = some tid) (hg : getTrip s tid = some trip)
    (hauth : claimMatches trip.driverId p.driverId = true)
    (hthrow : f.updateTripThrows = false) (hnone : f.updateTripReturnsNone = false) :
    handleMessage reg s f now sid (.trip_status_update (some p)) =
      (reg.filter (fun c => c.2),
       secondaryEffects
         { s with trips := putTrip s.trips tid (applyTripPatch trip (statusPatch p.status now)) }
         f p.status (applyTripPatch trip (statusPatch p.status now)),
       (reg.filter (fun c => c.2)).map
         (fun c => (c.1, OutMsg.trip_status_update (applyTripPatch trip (statusPatch p.status now))))) := by
  have hfind : s.trips.find? (fun t => t.id == tid) = some trip := hg
  simp [handleMessage, htid, hg, hauth, hthrow, hnone, updateTrip, hfind, statusPatch,
    wsBroadcast_eq]

theorem handle_location_accepted (reg : Registry) (s : StorageState) (f : Faults)
    (now : Nat) (sid : String) (p : LocPayload) (tid lat lng : String) (trip : Trip)
    (htid : p.tripId = some tid) (hg : getTrip s tid = some trip)
    (hauth : claimMatches trip.driverId p.driverId = true)
    (hlat : p.latitude = some lat) (hlng : p.longitude = some lng)
    (hf : f.createLocationThrows = false) :
    handleMessage reg s f now sid (.location_update (some p)) =
      (reg.filter (fun c => c.2),
       { s with locations := s.locations ++ [(createLocation s tid lat lng now).1],
                nextLocId := s.nextLocId + 1 },
       (reg.filter (fun c => c.2)).map
         (fun c => (c.1, OutMsg.location_update (createLocation s tid lat lng now).1))) := by
  simp [handleMessage, htid, hg, hauth, hlat, hlng, hf, createLocation, wsBroadcast_eq]

/-! ### Shared concrete data for witnesses and counterexamples -/

/-- A trip assigned to driver `D1` with vehicle `V1`, start time already
recorded at tick 3. -/
def exTrip : Trip :=
  { id := "T1", driverId := "D1", vehicleId := "V1", status := "assigned",
    startTime := some 3, endTime := none }

/-- One persisted location row of trip `T1`. -/
def exRow : LocationRow :=
  { id := 0, tripId := "T1", latitude := "10", longitude := "20", timestamp := 0 }

/-- A storage state holding `exTrip`, its one location row, its vehicle and
its driver. -/
def exStorage : StorageState :=
  { trips := [exTrip], locations := [exRow], vehicles := [("V1", "available")],
    users := [("D1", "available")], nextLocId := 1 }

/-- A registry with two live connections and one dead one. -/
def exReg : Registry := [("c1", true), ("c2", true), ("c3", false)]

/-- A `location_update` frame claiming the wrong driver `DX` for trip `T1`. -/
def exBadLocFrame : Frame :=
  .location_update (some { tripId := some "T1", latitude := some "10",
                           longitude := some "20", driverId := some "DX" })

/-- Payload of a well-authorized `location_update` for trip `T1`, driver `D1`. -/
def exGoodLocPayload : LocPayload :=
  { tripId := some "T1", latitude := some "11", longitude := some "21",
    driverId := some "D1" }

/-- A well-authorized `location_update` frame for trip `T1` from driver `D1`. -/
def exGoodLocFrame : Frame := .location_update (some exGoodLocPayload)

/-- A well-authorized `trip_status_update` frame moving `T1` to `cancelled`. -/
def exCancelPayload : StatusPayload :=
  { tripId := some "T1", status := some "cancelled", driverId := some "D1" }

/-- A well-authorized `trip_status_update` frame moving `T1` to `in_progress`. -/
def exProgressPayload : StatusPayload :=
  { tripId := some "T1", status := some "in_progress", driverId := some "D1" }

/-- A well-authorized `trip_status_update` frame moving `T1` to `completed`. -/
def exCompletePayload : StatusPayload :=
  { tripId := some "T1", status := some "completed", driverId := some "D1" }

/-! ### The claims -/

/-- Claim C1: for every inbound `location_update` or `trip_status_update`
whose claimed driver does not match the trip fetched from storage (or whose
trip id matches no trip), the relay leaves storage and registry unchanged,
broadcasts nothing, and sends exactly one error-typed message to the
originating connection only. -/
theorem C1_unauthorized_update_rejected (reg : Registry) (s : StorageState)
    (f : Faults) (now : Nat) (sid : String) (frame : Frame)
    (hupd : isUpdateFrame frame = true)
    (hden : authDenied s (frameTripId frame) (frameDriverId frame) = true) :
    ∃ m : String,
      handleMessage reg s f now sid frame = (reg, s, [(sid, OutMsg.error m)]) := by
  cases frame with
  | notJson => simp [isUpdateFrame] at hupd
  | ping => simp [isUpdateFrame] at hupd
  | other ty => simp [isUpdateFrame] at hupd
  | location_update q =>
    cases q with
    | none => simp [isUpdateFrame] at hupd
    | some p =>
      simp only [frameTripId, frameDriverId] at hden
      cases htid : p.tripId with
      | none => exact ⟨"Trip not found", by simp [handleMessage, htid]⟩
      | some tid =>
        cases hg : getTrip s tid with
        | none => exact ⟨"Trip not found", by simp [handleMessage, htid, hg]⟩
        | some trip =>
          have hcm : claimMatches trip.driverId p.driverId = false := by
            simpa [authDenied, htid, hg] using hden
          exact ⟨"Unauthorized: You can only update your own trips",
            by simp [handleMessage, htid, hg, hcm]⟩
  | trip_status_update q =>
    cases q with
    | none => simp [isUpdateFrame] at hupd
    | some p =>
      simp only [frameTripId, frameDriverId] at hden
      cases htid : p.tripId with
      | none => exact ⟨"Trip not found", by simp [handleMessage, htid]⟩
      | some tid =>
        cases hg : getTrip s tid with
        | none => exact ⟨"Trip not found", by simp [handleMessage, htid, hg]⟩
        | some trip =>
          have hcm : claimMatches trip.driverId p.driverId = false := by
            simpa [authDenied, htid, hg] using hden
          exact ⟨"Unauthorized: You can only update your own trips",
            by simp [handleMessage, htid, hg, hcm]⟩

/-- Witness for C1: the wrong-driver frame `exBadLocFrame` against
`exStorage` gets exactly one error reply and changes nothing. -/
theorem C1_witness :
    ∃ m : String,
      handleMessage exReg exStorage noFaults 0 "c1" exBadLocFrame =
        (exReg, exStorage, [("c1", OutMsg.error m)]) :=
  C1_unauthorized_update_rejected exReg exStorage noFaults 0 "c1" exBadLocFrame
    (by rfl) (by decide)

/-- Claim C10: when the authorization check passes but `storage.updateTrip`
returns no trip (the trip vanished between the two reads), the handler sends
nothing at all — no broadcast, no error reply — and performs no side-effect
update. -/
theorem C10_vanished_trip_silent_drop (reg : Registry) (s : StorageState)
    (f : Faults) (now : Nat) (sid : String) (p : StatusPayload) (tid : String)
    (trip : Trip) (htid : p.tripId = some tid) (hg : getTrip s tid = some trip)
    (hauth : claimMatches trip.driverId p.driverId = true)
    (hthrow : f.updateTripThrows = false)
    (hnone : f.updateTripReturnsNone = true) :
    handleMessage reg s f now sid (.trip_status_update (some p)) = (reg, s, []) := by
  simp [handleMessage, htid, hg, hauth, hthrow, hnone]

/-- Witness for C10: with the vanishing-trip fault injected, the authorized
cancel frame produces no output and no state change. -/
theorem C10_witness :
    handleMessage exReg exStorage { updateTripReturnsNone := true } 0 "c1"
        (.trip_status_update (some exCancelPayload)) = (exReg, exStorage, []) :=
  C10_vanished_trip_silent_drop exReg exStorage { updateTripReturnsNone := true }
    0 "c1" exCancelPayload "T1" exTrip (by rfl) (by decide) (by decide)
    (by rfl) (by rfl)

/-- Claim C8: the broadcast fan-out sends the one serialized message
unchanged to every live connection in the registry — with `N` live
connections exactly `N` sends occur, all carrying the same message, and a
live sender is itself among the recipients. -/
theorem C8_broadcast_fanout_complete (reg : Registry) (msg : OutMsg) :
    (wsBroadcast reg msg).2 = (reg.filter (fun c => c.2)).map (fun c => (c.1, msg)) ∧
    (wsBroadcast reg msg).2.length = (reg.filter (fun c => c.2)).length ∧
    (∀ cid out, (cid, out) ∈ (wsBroadcast reg msg).2 → out = msg) ∧
    (∀ cid, (cid, true) ∈ reg → (cid, msg) ∈ (wsBroadcast reg msg).2) := by
  refine ⟨?_, ?_, ?_, ?_⟩
  · rw [wsBroadcast_eq]
  · rw [wsBroadcast_eq]
    exact List.length_map _ _
  · intro cid out h
    exact (wsBroadcast_mem_out h).1
  · intro cid h
    exact wsBroadcast_mem_live msg h

/-- Witness for C8: on `exReg` (two live connections, one dead) a broadcast
delivers exactly two copies of the message, one of them to the sender `c1`. -/
theorem C8_witness :
    (wsBroadcast exReg (OutMsg.pong)).2.length = (exReg.filter (fun c => c.2)).length ∧
    ("c1", OutMsg.pong) ∈ (wsBroadcast exReg (OutMsg.pong)).2 :=
  ⟨(C8_broadcast_fanout_complete exReg OutMsg.pong).2.1,
   (C8_broadcast_fanout_complete exReg OutMsg.pong).2.2.2 "c1" (by decide)⟩

/-- Claim C9: a connection whose send fails (its socket is no longer open) is
removed from the registry during the fan-out: it receives no send in this
fan-out, it is absent from the registry afterwards, and a subsequent
broadcast over the resulting registry attempts no send to it. -/
theorem C9_send_failure_pruned (reg : Registry) (msg msg2 : OutMsg) (cid : String)
    (_hpresent : (cid, false) ∈ reg)
    (hdead : ∀ b, (cid, b) ∈ reg → b = false) :
    (∀ out, (cid, out) ∉ (wsBroadcast reg msg).2) ∧
    (∀ b, (cid, b) ∉ (wsBroadcast reg msg).1) ∧
    (∀ out, (cid, out) ∉ (wsBroadcast (wsBroadcast reg msg).1 msg2).2) := by
  have hreg : ∀ b, (cid, b) ∉ (wsBroadcast reg msg).1 := by
    intro b h
    rw [wsBroadcast_eq] at h
    rcases List.mem_filter.mp h with ⟨hmem, hb⟩
    simp only at hb
    rw [hdead b hmem] at hb
    exact Bool.noConfusion hb
  refine ⟨?_, hreg, ?_⟩
  · intro out h
    have := (wsBroadcast_mem_out h).2
    exact Bool.noConfusion (hdead true this)
  · intro out h
    exact hreg true (wsBroadcast_mem_out h).2

/-- Witness for C9: the dead connection `c3` of `exReg` receives nothing,
disappears from the registry, and is skipped by the next broadcast. -/
theorem C9_witness :
    (∀ out, ("c3", out) ∉ (wsBroadcast exReg OutMsg.pong).2) ∧
    (∀ b, ("c3", b) ∉ (wsBroadcast exReg OutMsg.pong).1) ∧
    (∀ out, ("c3", out) ∉ (wsBroadcast (wsBroadcast exReg OutMsg.pong).1 OutMsg.pong).2) :=
  C9_send_failure_pruned exReg OutMsg.pong OutMsg.pong "c3" (by decide)
    (by decide)

/-- Counterexample to C6 as stated: the recognized-JSON frame
`{"type":"subscribe"}` is an unrecognized kind, yet the relay replies with
nothing at all — it is silently discarded, so not every malformed or
unrecognized frame receives an error reply. -/
theorem C6_counterexample :
    (handleMessage exReg exStorage noFaults 0 "c1" (Frame.other "subscribe")).2.2 = [] :=
  rfl

/-- Claim C6 (amended): a frame that fails JSON parsing gets exactly one
error-typed reply to the originating connection only and is never broadcast;
a frame that parses but has an unrecognized kind or a missing payload is
silently discarded (no reply, no broadcast); in all these cases the handler
returns normally with registry and storage unchanged, so no such frame
crashes the connection. -/
theorem C6_amended_malformed_frame_handling (reg : Registry) (s : StorageState)
    (f : Faults) (now : Nat) (sid : String) :
    handleMessage reg s f now sid Frame.notJson =
      (reg, s, [(sid, OutMsg.error "Invalid message format")]) ∧
    (∀ ty, handleMessage reg s f now sid (Frame.other ty) = (reg, s, [])) ∧
    handleMessage reg s f now sid (Frame.location_update none) = (reg, s, []) ∧
    handleMessage reg s f now sid (Frame.trip_status_update none) = (reg, s, []) :=
  ⟨rfl, fun _ => rfl, rfl, rfl⟩

/-- Claim C2: invariant — if the handler emits any broadcast-typed message
for an inbound frame, then for that same frame the trip was read afresh from
the storage state current at processing time and the authorization check
(trip exists and its `driverId` equals the claimed one) passed. -/
theorem C2_broadcast_requires_fresh_auth (reg : Registry) (s : StorageState)
    (f : Faults) (now : Nat) (sid : String) (frame : Frame) (cid : String)
    (out : OutMsg)
    (hmem : (cid, out) ∈ (handleMessage reg s f now sid frame).2.2)
    (hb : isBroadcastMsg out = true) :
    ∃ tid trip, frameTripId frame = some tid ∧ getTrip s tid = some trip ∧
      claimMatches trip.driverId (frameDriverId frame) = true := by
  cases frame with
  | notJson =>
    simp [handleMessage] at hmem
    rw [hmem.2] at hb
    simp [isBroadcastMsg] at hb
  | ping =>
    simp [handleMessage] at hmem
    rw [hmem.2] at hb
    simp [isBroadcastMsg] at hb
  | other ty => simp [handleMessage] at hmem
  | location_update q =>
    cases q with
    | none => simp [handleMessage] at hmem
    | some p =>
      cases htid : p.tripId with
      | none =>
        simp [handleMessage, htid] at hmem
        rw [hmem.2] at hb
        simp [isBroadcastMsg] at hb
      | some tid =>
        cases hg : getTrip s tid with
        | none =>
          simp [handleMessage, htid, hg] at hmem
          rw [hmem.2] at hb
          simp [isBroadcastMsg] at hb
        | some trip =>
          by_cases hcm : claimMatches trip.driverId p.driverId = true
          · exact ⟨tid, trip, by simp [frameTripId, htid], hg,
              by simpa [frameDriverId] using hcm⟩
          · rw [Bool.not_eq_true] at hcm
            simp [handleMessage, htid, hg, hcm] at hmem
            rw [hmem.2] at hb
            simp [isBroadcastMsg] at hb
  | trip_status_update q =>
    cases q with
    | none => simp [handleMessage] at hmem
    | some p =>
      cases htid : p.tripId with
      | none =>
        simp [handleMessage, htid] at hmem
        rw [hmem.2] at hb
        simp [isBroadcastMsg] at hb
      | some tid =>
        cases hg : getTrip s tid with
        | none =>
          simp [handleMessage, htid, hg] at hmem
          rw [hmem.2] at hb
          simp [isBroadcastMsg] at hb
        | some trip =>
          by_cases hcm : claimMatches trip.driverId p.driverId = true
          · exact ⟨tid, trip, by simp [frameTripId, htid], hg,
              by simpa [frameDriverId] using hcm⟩
          · rw [Bool.not_eq_true] at hcm
            simp [handleMessage, htid, hg, hcm] at hmem
            rw [hmem.2] at hb
            simp [isBroadcastMsg] at hb

/-- Witness for C2: the broadcast that the authorized frame `exGoodLocFrame`
produces to connection `c2` implies the authorization facts for trip `T1`. -/
theorem C2_witness :
    ∃ tid trip, frameTripId exGoodLocFrame = some tid ∧
      getTrip exStorage tid = some trip ∧
      claimMatches trip.driverId (frameDriverId exGoodLocFrame) = true :=
  C2_broadcast_requires_fresh_auth exReg exStorage noFaults 7 "c1" exGoodLocFrame
    "c2" (OutMsg.location_update ⟨1, "T1", "11", "21", 7⟩) (by decide) (by rfl)

/-- Claim C3: an authorized, well-formed `location_update` appends exactly
the row built by `createLocation` to the location table, and that same
persisted row is delivered to every live connection other than the sender
(every send of the step carries exactly this row). -/
theorem C3_authorized_location_persists_and_broadcasts (reg : Registry)
    (s : StorageState) (f : Faults) (now : Nat) (sid : String) (p : LocPayload)
    (tid lat lng : String) (trip : Trip)
    (htid : p.tripId = some tid) (hg : getTrip s tid = some trip)
    (hauth : claimMatches trip.driverId p.driverId = true)
    (hlat : p.latitude = some lat) (hlng : p.longitude = some lng)
    (hf : f.createLocationThrows = false) :
    (handleMessage reg s f now sid (.location_update (some p))).2.1.locations =
      s.locations ++ [(createLocation s tid lat lng now).1] ∧
    (∀ cid, (cid, true) ∈ reg → cid ≠ sid →
      (cid, OutMsg.location_update (createLocation s tid lat lng now).1) ∈
        (handleMessage reg s f now sid (.location_update (some p))).2.2) ∧
    (∀ cid out,
      (cid, out) ∈ (handleMessage reg s f now sid (.location_update (some p))).2.2 →
      out = OutMsg.location_update (createLocation s tid lat lng now).1) := by
  rw [handle_location_accepted reg s f now sid p tid lat lng trip htid hg hauth
    hlat hlng hf]
  refine ⟨rfl, ?_, ?_⟩
  · intro cid hlive _
    exact List.mem_map.mpr ⟨(cid, true), List.mem_filter.mpr ⟨hlive, rfl⟩, rfl⟩
  · intro cid out h
    rcases List.mem_map.mp h with ⟨c, _, heq⟩
    injection heq with h1 h2
    exact h2.symm

/-- Witness for C3: the authorized frame `exGoodLocFrame` on `exStorage`
persists row 1 and delivers it to the other live connection `c2`. -/
theorem C3_witness :
    (handleMessage exReg exStorage noFaults 7 "c1" exGoodLocFrame).2.1.locations =
      exStorage.locations ++ [(createLocation exStorage "T1" "11" "21" 7).1] ∧
    ("c2", OutMsg.location_update (createLocation exStorage "T1" "11" "21" 7).1) ∈
      (handleMessage exReg exStorage noFaults 7 "c1" exGoodLocFrame).2.2 := by
  have h := C3_authorized_location_persists_and_broadcasts exReg exStorage
    noFaults 7 "c1" exGoodLocPayload "T1" "11" "21" exTrip
    (by rfl) (by decide) (by decide) (by rfl) (by rfl) (by rfl)
  exact ⟨h.1, h.2.1 "c2" (by decide) (by decide)⟩

/-- Counterexample to C4 as stated: an authorized `trip_status_update` to
`cancelled` on `exStorage` deletes the trip's location history (the location
table becomes empty although it held a row of trip `T1`), so location rows
are not deleted only on `completed`. -/
theorem C4_counterexample :
    (handleMessage exReg exStorage noFaults 9 "c1"
        (.trip_status_update (some exCancelPayload))).2.1.locations = [] ∧
    exStorage.locations = [exRow] :=
  ⟨rfl, rfl⟩

/-- Claim C4 (amended): for every authorized `trip_status_update` entering
`completed` or `cancelled`, the trip's vehicle and driver statuses are both
set to `available`, and the trip's location history rows are deleted on both
terminal statuses (`cancelled` deletes them as well). -/
theorem C4_amended_terminal_side_effects (reg : Registry) (s : StorageState)
    (now : Nat) (sid : String) (p : StatusPayload) (tid : String) (trip : Trip)
    (htid : p.tripId = some tid) (hg : getTrip s tid = some trip)
    (hauth : claimMatches trip.driverId p.driverId = true)
    (hst : p.status = some "completed" ∨ p.status = some "cancelled") :
    (handleMessage reg s noFaults now sid (.trip_status_update (some p))).2.1.locations =
      s.locations.filter (fun l => !(l.tripId == trip.id)) ∧
    (handleMessage reg s noFaults now sid (.trip_status_update (some p))).2.1.vehicles =
      s.vehicles.map (fun v => if v.1 == trip.vehicleId then (v.1, "available") else v) ∧
    (handleMessage reg s noFaults now sid (.trip_status_update (some p))).2.1.users =
      s.users.map (fun u => if u.1 == trip.driverId then (u.1, "available") else u) := by
  rw [handle_status_accepted reg s noFaults now sid p tid trip htid hg hauth rfl rfl]
  rcases hst with hst | hst <;> rw [hst] <;>
    simp [secondaryEffects, updateVehicleStatus, updateUserStatus,
      deleteLocationsByTrip, applyTripPatch, statusPatch, noFaults]

/-- Witness for C4 (amended): completing trip `T1` on `exStorage` deletes its
location row and frees vehicle `V1` and driver `D1`. -/
theorem C4_amended_witness :
    (handleMessage exReg exStorage noFaults 9 "c1"
        (.trip_status_update (some exCompletePayload))).2.1.locations =
      exStorage.locations.filter (fun l => !(l.tripId == exTrip.id)) ∧
    (handleMessage exReg exStorage noFaults 9 "c1"
        (.trip_status_update (some exCompletePayload))).2.1.vehicles =
      exStorage.vehicles.map
        (fun v => if v.1 == exTrip.vehicleId then (v.1, "available") else v) ∧
    (handleMessage exReg exStorage noFaults 9 "c1"
        (.trip_status_update (some exCompletePayload))).2.1.users =
      exStorage.users.map
        (fun u => if u.1 == exTrip.driverId then (u.1, "available") else u) :=
  C4_amended_terminal_side_effects exReg exStorage 9 "c1" exCompletePayload
    "T1" exTrip (by rfl) (by decide) (by decide) (Or.inl rfl)

/-- Counterexample to C5 as stated: trip `T1` already has start time tick 3;
an authorized `trip_status_update` to `in_progress` at tick 7 overwrites it
to tick 7, so a previously recorded start time is not left unchanged. -/
theorem C5_counterexample :
    (handleMessage exReg exStorage noFaults 7 "c1"
        (.trip_status_update (some exProgressPayload))).2.1.trips.map
      Trip.startTime = [some 7] ∧
    exStorage.trips.map Trip.startTime = [some 3] :=
  ⟨rfl, rfl⟩

/-- Claim C5 (amended): for every authorized `trip_status_update` entering
`in_progress`, the trip's vehicle status is set to `in_use`, its driver's
status to `on_trip`, its persisted status to `in_progress`, and its start
time is set to the current time unconditionally — overwriting any previously
recorded start time. -/
theorem C5_amended_in_progress_side_effects (reg : Registry) (s : StorageState)
    (now : Nat) (sid : String) (p : StatusPayload) (tid : String) (trip : Trip)
    (htid : p.tripId = some tid) (hg : getTrip s tid = some trip)
    (hauth : claimMatches trip.driverId p.driverId = true)
    (hst : p.status = some "in_progress") :
    getTrip
        (handleMessage reg s noFaults now sid (.trip_status_update (some p))).2.1
        tid = some (applyTripPatch trip (statusPatch p.status now)) ∧
    (applyTripPatch trip (statusPatch p.status now)).status = "in_progress" ∧
    (applyTripPatch trip (statusPatch p.status now)).startTime = some now ∧
    (handleMessage reg s noFaults now sid (.trip_status_update (some p))).2.1.vehicles =
      s.vehicles.map (fun v => if v.1 == trip.vehicleId then (v.1, "in_use") else v) ∧
    (handleMessage reg s noFaults now sid (.trip_status_update (some p))).2.1.users =
      s.users.map (fun u => if u.1 == trip.driverId then (u.1, "on_trip") else u) := by
  have hg2 : s.trips.find? (fun t => t.id == tid) = some trip := hg
  have hpid : (trip.id == tid) = true := by simpa using List.find?_some hg2
  rw [handle_status_accepted reg s noFaults now sid p tid trip htid hg hauth rfl rfl]
  refine ⟨?_, ?_, ?_, ?_, ?_⟩
  · show getTrip (secondaryEffects _ _ _ _) tid = _
    unfold getTrip
    rw [secondaryEffects_trips]
    exact find?_putTrip s.trips tid _ (by rw [show s.trips.find? (fun t => t.id == tid) = some trip from hg]; rfl)
      (by simpa [applyTripPatch] using hpid)
  · rw [hst]; simp [applyTripPatch, statusPatch]
  · rw [hst]; simp [applyTripPatch, statusPatch]
  · rw [hst]
    simp [secondaryEffects, updateVehicleStatus, updateUserStatus, applyTripPatch,
      statusPatch, noFaults]
  · rw [hst]
    simp [secondaryEffects, updateVehicleStatus, updateUserStatus, applyTripPatch,
      statusPatch, noFaults]

/-- Witness for C5 (amended): starting trip `T1` on `exStorage` at tick 7
stores start time 7, status `in_progress`, vehicle `in_use`, driver
`on_trip`. -/
theorem C5_amended_witness :
    getTrip
        (handleMessage exReg exStorage noFaults 7 "c1"
          (.trip_status_update (some exProgressPayload))).2.1 "T1" =
      some (applyTripPatch exTrip (statusPatch exProgressPayload.status 7)) ∧
    (applyTripPatch exTrip (statusPatch exProgressPayload.status 7)).status =
      "in_progress" ∧
    (applyTripPatch exTrip (statusPatch exProgressPayload.status 7)).startTime =
      some 7 ∧
    (handleMessage exReg exStorage noFaults 7 "c1"
        (.trip_status_update (some exProgressPayload))).2.1.vehicles =
      exStorage.vehicles.map
        (fun v => if v.1 == exTrip.vehicleId then (v.1, "in_use") else v) ∧
    (handleMessage exReg exStorage noFaults 7 "c1"
        (.trip_status_update (some exProgressPayload))).2.1.users =
      exStorage.users.map
        (fun u => if u.1 == exTrip.driverId then (u.1, "on_trip") else u) :=
  C5_amended_in_progress_side_effects exReg exStorage 7 "c1" exProgressPayload
    "T1" exTrip (by rfl) (by decide) (by decide) (by rfl)

/-- Claim C7: if a secondary side-effect call (vehicle flip, driver flip, or
location cleanup) throws during an authorized `trip_status_update`, the
primary update still stands — the updated trip is the one stored under its
id — the updated trip is still broadcast to every live connection, and no
error-typed message is sent to anyone. -/
theorem C7_secondary_failure_primary_stands (reg : Registry) (s : StorageState)
    (f : Faults) (now : Nat) (sid : String) (p : StatusPayload) (tid : String)
    (trip : Trip)
    (htid : p.tripId = some tid) (hg : getTrip s tid = some trip)
    (hauth : claimMatches trip.driverId p.driverId = true)
    (hthrow : f.updateTripThrows = false) (hnone : f.updateTripReturnsNone = false)
    (_hfail : f.updateVehicleThrows = true ∨ f.updateUserThrows = true ∨
      f.deleteLocationsThrows = true) :
    getTrip (handleMessage reg s f now sid (.trip_status_update (some p))).2.1
        tid = some (applyTripPatch trip (statusPatch p.status now)) ∧
    (handleMessage reg s f now sid (.trip_status_update (some p))).2.2 =
      (reg.filter (fun c => c.2)).map
        (fun c => (c.1,
          OutMsg.trip_status_update (applyTripPatch trip (statusPatch p.status now)))) ∧
    (∀ cid out,
      (cid, out) ∈ (handleMessage reg s f now sid (.trip_status_update (some p))).2.2 →
      isErrorMsg out = false) := by
  have hg2 : s.trips.find? (fun t => t.id == tid) = some trip := hg
  have hpid : (trip.id == tid) = true := by simpa using List.find?_some hg2
  rw [handle_status_accepted reg s f now sid p tid trip htid hg hauth hthrow hnone]
  refine ⟨?_, rfl, ?_⟩
  · show getTrip (secondaryEffects _ _ _ _) tid = _
    unfold getTrip
    rw [secondaryEffects_trips]
    exact find?_putTrip s.trips tid _ (by rw [show s.trips.find? (fun t => t.id == tid) = some trip from hg]; rfl)
      (by simpa [applyTripPatch] using hpid)
  · intro cid out h
    rcases List.mem_map.mp h with ⟨c, _, heq⟩
    injection heq with h1 h2
    rw [← h2]
    rfl

/-- Witness for C7: with the vehicle-flip call throwing, completing trip `T1`
still stores and broadcasts the completed trip, with no error reply. -/
theorem C7_witness :
    getTrip
        (handleMessage exReg exStorage { updateVehicleThrows := true } 9 "c1"
          (.trip_status_update (some exCompletePayload))).2.1 "T1" =
      some (applyTripPatch exTrip (statusPatch exCompletePayload.status 9)) ∧
    (handleMessage exReg exStorage { updateVehicleThrows := true } 9 "c1"
        (.trip_status_update (some exCompletePayload))).2.2 =
      (exReg.filter (fun c => c.2)).map
        (fun c => (c.1,
          OutMsg.trip_status_update
            (applyTripPatch exTrip (statusPatch exCompletePayload.status 9)))) ∧
    (∀ cid out,
      (cid, out) ∈ (handleMessage exReg exStorage { updateVehicleThrows := true }
          9 "c1" (.trip_status_update (some exCompletePayload))).2.2 →
      isErrorMsg out = false) :=
  C7_secondary_failure_primary_stands exReg exStorage { updateVehicleThrows := true }
    9 "c1" exCompletePayload "T1" exTrip (by rfl) (by decide) (by decide)
    (by rfl) (by rfl) (Or.inl rfl)

end SRLog
